import Mathlib

/-!
Verification of the Sanctu liturgical-content service.

This file gives a shallow embedding of the caching / parsing / classification
core of the repository:

* the keyword-based liturgical classifier and label normaliser of
  `src/app/api/readings/route.ts`;
* the gzip+base64 payload codec wrappers `compressPayload` /
  `decompressPayload` of the same file (the zlib / JSON / base64 library
  primitives are abstracted as codec parameters satisfying their contracts);
* the `GET` request handler of `src/app/api/readings/route.ts` as a total
  function from an environment (redis availability / fault flags, origin
  fetch outcome) and server state to a response and an updated state, with
  the JavaScript try/catch modelled by routing every throwing branch to the
  fallback response;
* the client persistent cache write `cacheReadings` of `src/lib/db/index.ts`;
* the service-worker readings fetch branch of the offline cache agent;
* the consecutive-verses merge post-process of `parseHTMLToSections` in the
  morning-prayer route.

Machine integers are modelled as `Nat` (timestamps in milliseconds);
JavaScript exceptions are modelled as `Option` / explicit fallback routing.
-/

namespace Sanctu

/-- The two supported languages of the readings endpoint. -/
inductive Lang where
  | en
  | es
deriving DecidableEq, Repr

/-- The string form of a language, as used in cache keys and payloads. -/
def langStr : Lang → String
  | .en => "en"
  | .es => "es"

/-- JavaScript `toLowerCase`, restricted to the character repertoire that the
classifier and label normaliser actually inspect: ASCII letters plus the
uppercase accented vowels occurring in Spanish liturgical titles. -/
def jsToLowerChar (ch : Char) : Char :=
  if ch = 'Á' then 'á'
  else if ch = 'É' then 'é'
  else if ch = 'Í' then 'í'
  else if ch = 'Ó' then 'ó'
  else if ch = 'Ú' then 'ú'
  else if ch = 'Ñ' then 'ñ'
  else ch.toLower

/-- JavaScript `String.prototype.toLowerCase` (see `jsToLowerChar`). -/
def jsToLower (s : String) : String :=
  String.mk (s.data.map jsToLowerChar)

/-- JavaScript `haystack.includes(needle)`: substring containment. -/
def jsIncludes (haystack needle : String) : Bool :=
  decide (needle.data <:+: haystack.data)

/-- The whitespace characters relevant to trimming the labels at hand. -/
def isJsWhitespace (ch : Char) : Bool :=
  ch = ' ' || ch = '\t' || ch = '\n' || ch = '\r'

/-- JavaScript `String.prototype.trim`: strip leading and trailing
whitespace. -/
def jsTrim (s : String) : String :=
  String.mk (((s.data.dropWhile isJsWhitespace).reverse.dropWhile isJsWhitespace).reverse)

/-- `keywords.some(kw => lower.includes(kw))` from the classifier. -/
def hasAnyKeyword (lower : String) (keywords : List String) : Bool :=
  keywords.any (fun kw => jsIncludes lower kw)

/-- White-indicating keywords of `determineLiturgicalColor`. -/
def whiteKeywords : Lang → List String
  | .es => ["navidad", "pascua", "maría", "inmaculada", "asunción", "natividad",
            "epifanía", "ascensión", "corpus christi", "sagrado corazón"]
  | .en => ["christmas", "easter", "mary", "immaculate", "assumption", "nativity",
            "epiphany", "ascension", "corpus christi", "sacred heart"]

/-- Red-indicating keywords of `determineLiturgicalColor`. -/
def redKeywords : Lang → List String
  | .es => ["pentecostés", "domingo de ramos", "viernes santo", "pasión", "mártir"]
  | .en => ["pentecost", "palm sunday", "good friday", "passion", "martyr"]

/-- Violet-indicating keywords of `determineLiturgicalColor`. -/
def violetKeywords : Lang → List String
  | .es => ["adviento", "cuaresma"]
  | .en => ["advent", "lent"]

/-- `determineLiturgicalColor` from `src/app/api/readings/route.ts`:
keyword lookup over the lowercased title with fixed precedence
white > red > violet > rose > default green. -/
def determineLiturgicalColor (title : String) (lang : Lang) : String :=
  let lower := jsToLower title
  if hasAnyKeyword lower (whiteKeywords lang) then "white"
  else if hasAnyKeyword lower (redKeywords lang) then "red"
  else if hasAnyKeyword lower (violetKeywords lang) then "violet"
  else if jsIncludes lower "gaudete" || jsIncludes lower "laetare" then "rose"
  else "green"

/-- The reading type enumeration of the data model. -/
inductive ReadingType where
  | first
  | psalm
  | second
  | gospel
  | alleluia
deriving DecidableEq, Repr

/-- `normalizeLabel` from `src/app/api/readings/route.ts`: canonicalise a raw
reading label by case-insensitive keyword containment; an unmatched label
falls through to its own trimmed text (or a generic label when empty). -/
def normalizeLabel (label : String) (lang : Lang) : String :=
  let lower := jsToLower label
  match lang with
  | .es =>
    if jsIncludes lower "salmo" then "Salmo Responsorial"
    else if jsIncludes lower "aleluya" || jsIncludes lower "aclamacion"
         || jsIncludes lower "aclamación" then "Aleluya"
    else if jsIncludes lower "evangelio" then "Evangelio"
    else if jsIncludes lower "segunda" || jsIncludes lower "lectura 2" then "Segunda Lectura"
    else if jsIncludes lower "primera" || jsIncludes lower "lectura 1" then "Primera Lectura"
    else if jsTrim label ≠ "" then jsTrim label else "Lectura"
  | .en =>
    if jsIncludes lower "psalm" then "Responsorial Psalm"
    else if jsIncludes lower "gospel" then "Gospel"
    else if jsIncludes lower "alleluia" then "Alleluia"
    else if jsIncludes lower "second" || jsIncludes lower "reading 2" then "Second Reading"
    else if jsIncludes lower "reading 1" then "First Reading"
    else if jsTrim label ≠ "" then jsTrim label else "Reading"

/-- `mapLabelToType` from `src/app/api/readings/route.ts`: the reading-type
classification of a raw label; unmatched labels default to `first`. -/
def mapLabelToType (label : String) (lang : Lang) : ReadingType :=
  let lower := jsToLower label
  match lang with
  | .es =>
    if jsIncludes lower "salmo" then .psalm
    else if jsIncludes lower "aleluya" || jsIncludes lower "aclamacion"
         || jsIncludes lower "aclamación" then .alleluia
    else if jsIncludes lower "evangelio" then .gospel
    else if jsIncludes lower "segunda" || jsIncludes lower "lectura 2" then .second
    else .first
  | .en =>
    if jsIncludes lower "psalm" then .psalm
    else if jsIncludes lower "gospel" then .gospel
    else if jsIncludes lower "alleluia" then .alleluia
    else if jsIncludes lower "second" || jsIncludes lower "reading 2" then .second
    else .first

/-- The keyword set that `normalizeLabel` tests, per language.  A label that
contains none of these (case-insensitively) takes the fallthrough branch of
both `normalizeLabel` and `mapLabelToType`. -/
def normalizeKeywords : Lang → List String
  | .es => ["salmo", "aleluya", "aclamacion", "aclamación", "evangelio",
            "segunda", "lectura 2", "primera", "lectura 1"]
  | .en => ["psalm", "gospel", "alleluia", "second", "reading 2", "reading 1"]

/-- One lectionary passage, as produced by the readings parser
(`interface Reading` in `src/app/api/readings/route.ts`). -/
structure Reading where
  citation : String
  label : String
  content : String
  type : ReadingType
deriving DecidableEq, Repr

/-- The payload stored in the shared cache
(`interface CachedReadings` in `src/app/api/readings/route.ts`). -/
structure CachedReadings where
  readings : List Reading
  liturgicalColor : String
  season : String
  cachedAt : Nat
  language : String
deriving DecidableEq, Repr

/-- The library primitives used by `compressPayload` / `decompressPayload`:
`JSON.stringify` / `JSON.parse`, `zlib.gzipSync` / `zlib.gunzipSync` and the
base64 codec of `Buffer`.  These are external to the repository, so they are
abstracted as parameters; `gzip` returns `none` when `gzipSync` throws and
`gunzip` returns `none` when `gunzipSync` or the subsequent `JSON.parse`
input is rejected; `b64decode` is total because `Buffer.from(s, 'base64')`
never throws.  Bytes are modelled as `List Nat`. -/
structure PayloadCodec where
  stringify : CachedReadings → String
  parse : String → Option CachedReadings
  gzip : String → Option (List Nat)
  gunzip : List Nat → Option String
  b64encode : List Nat → String
  b64decode : String → List Nat

/-- Contract of gzip composed with the base64 codec: decoding and
decompressing what was compressed and encoded recovers the original text. -/
def GzipBase64RoundTrip (c : PayloadCodec) : Prop :=
  ∀ s b, c.gzip s = some b → c.gunzip (c.b64decode (c.b64encode b)) = some s

/-- Contract of the JSON codec: parsing a stringified payload recovers it. -/
def JsonRoundTrip (c : PayloadCodec) : Prop :=
  ∀ p, c.parse (c.stringify p) = some p

/-- Plain JSON text is not valid base64-encoded gzip data: feeding a
stringified payload to the decompression pipeline fails (gzip data must
start with the gzip magic bytes, which serialized JSON never decodes to). -/
def PlainJsonNotGzip (c : PayloadCodec) : Prop :=
  ∀ p, c.gunzip (c.b64decode (c.stringify p)) = none

/-- `compressPayload` from `src/app/api/readings/route.ts`: gzip the JSON
serialization and base64-encode it; if compression throws, store the plain
JSON serialization instead. -/
def compressPayload (c : PayloadCodec) (payload : CachedReadings) : String :=
  match c.gzip (c.stringify payload) with
  | some bytes => c.b64encode bytes
  | none => c.stringify payload

/-- `decompressPayload` from `src/app/api/readings/route.ts`: base64-decode,
gunzip and parse; if any of that throws, fall back to parsing the stored
string as plain JSON (legacy uncompressed entries).  A failure of the
fallback parse itself is an exception escaping `decompressPayload`, modelled
as `none`. -/
def decompressPayload (c : PayloadCodec) (serialized : String) : Option CachedReadings :=
  match (c.gunzip (c.b64decode serialized)).bind c.parse with
  | some payload => some payload
  | none => c.parse serialized

/-- A reading record of the client persistent cache
(`interface DailyReadings` in `src/lib/db/index.ts`); `date` is the primary
key of the Dexie table, `fetchedAt` the indexed fetch timestamp. -/
structure DailyReadingsRec where
  date : String
  readings : List Reading
  liturgicalColor : String
  season : String
  saint : Option String
  fetchedAt : Nat
  cacheState : Option String
deriving DecidableEq, Repr

/-- The `dailyReadings` Dexie table, as a list of records (unique `date`). -/
abbrev ReadingsStore := List DailyReadingsRec

/-- `db.dailyReadings.put`: upsert by the primary key `date`. -/
def putReading (store : ReadingsStore) (rec : DailyReadingsRec) : ReadingsStore :=
  rec :: List.filter (fun r => r.date ≠ rec.date) store

/-- `cacheReadings` from `src/lib/db/index.ts`: put the record, then delete
every record whose `fetchedAt` lies strictly below the cutoff timestamp
(the clock value thirty calendar days before now, computed by the caller
from the current time; passed here as `cutoff` in milliseconds). -/
def cacheReadings (store : ReadingsStore) (rec : DailyReadingsRec) (cutoff : Nat) :
    ReadingsStore :=
  List.filter (fun r => ¬ r.fetchedAt < cutoff) (putReading store rec)

/-- Section kinds of the morning-prayer office parser
(`type SectionType` in the morning-prayer route). -/
inductive SectionType where
  | dialogue
  | antiphon
  | psalmHeader
  | verses
  | doxology
  | rubric
  | heading
  | hymnTitle
  | readingRef
  | prayer
deriving DecidableEq, Repr

/-- One classified paragraph of the office
(`interface PrayerSection` in the morning-prayer route). -/
structure PrayerSection where
  type : SectionType
  content : String
  isResponse : Option Bool
deriving DecidableEq, Repr

/-- One step of the merge post-process at the end of `parseHTMLToSections`:
if the incoming section and the last merged section are both verses, append
the incoming content to the last section with a newline; otherwise push. -/
def mergeStep (merged : List PrayerSection) (s : PrayerSection) : List PrayerSection :=
  match merged.getLast? with
  | some last =>
    if s.type = SectionType.verses ∧ last.type = SectionType.verses then
      merged.dropLast ++ [{ last with content := last.content ++ "\n" ++ s.content }]
    else
      merged ++ [s]
  | none => merged ++ [s]

/-- The merge post-process that `parseHTMLToSections` applies to the
accumulated section list before returning it (`// Post-process: merge
consecutive verse sections` in the morning-prayer route).  The parser
returns `mergeConsecutiveVerses sections` for every input HTML string, so a
property of this function over all section lists covers all parser outputs. -/
def mergeConsecutiveVerses (sections : List PrayerSection) : List PrayerSection :=
  sections.foldl mergeStep []

/-- The adjacency relation forbidden in merged output: two neighbouring
sections may not both be verses. -/
def NotBothVerses (a b : PrayerSection) : Prop :=
  ¬ (a.type = SectionType.verses ∧ b.type = SectionType.verses)

/-- A response held by the service-worker readings cache bucket: its `date`
header as a timestamp in milliseconds, and its body. -/
structure SWCachedResp where
  dateMs : Nat
  body : String
deriving DecidableEq, Repr

/-- The outcome of a network `fetch` in the service worker: `none` models a
thrown network error; otherwise the response with its `ok` flag, `date`
header timestamp and body. -/
structure SWNetResp where
  ok : Bool
  dateMs : Nat
  body : String
deriving DecidableEq, Repr

/-- What the readings branch of the service-worker fetch handler resolves
to: a response body, or a rethrown error when the network failed and no
cached entry exists. -/
inductive SWOutcome where
  | served (body : String)
  | failed
deriving DecidableEq, Repr

/-- 24 hours in milliseconds: the freshness bound
`(now - cachedDate) / (1000*60*60) < 24` of the service worker. -/
def swFreshWindowMs : Nat := 24 * 60 * 60 * 1000

/-- The `/api/readings` branch of the service-worker `fetch` handler
(offline network cache agent, `sw.js`): serve a cached entry younger than
24 hours without touching the network; otherwise fetch, store the response
in the bucket when it is `ok`, and serve it; when the fetch throws, serve
the stale cached entry if one exists and rethrow otherwise.  Returns the
outcome, the updated bucket and whether a network fetch was attempted. -/
def swHandleReadings (bucket : Option SWCachedResp) (nowMs : Nat)
    (net : Option SWNetResp) : SWOutcome × Option SWCachedResp × Bool :=
  match bucket with
  | some cached =>
    if nowMs - cached.dateMs < swFreshWindowMs then
      (SWOutcome.served cached.body, bucket, false)
    else
      match net with
      | some resp =>
        if resp.ok then
          (SWOutcome.served resp.body, some ⟨resp.dateMs, resp.body⟩, true)
        else
          (SWOutcome.served resp.body, bucket, true)
      | none => (SWOutcome.served cached.body, bucket, true)
  | none =>
    match net with
    | some resp =>
      if resp.ok then
        (SWOutcome.served resp.body, some ⟨resp.dateMs, resp.body⟩, true)
      else
        (SWOutcome.served resp.body, none, true)
    | none => (SWOutcome.failed, none, true)

/-- Association-list lookup keyed by strings: the first binding wins
(models a key-value store where a later `set` shadows earlier ones). -/
def alistLookup {α : Type} : List (String × α) → String → Option α
  | [], _ => none
  | (k, v) :: rest, key => if k = key then some v else alistLookup rest key

/-- Result of `parseUSCCBHTML`: readings plus classification.  The regex
block extraction itself is an input to the handler model (a parameter
`parseFn`), since only emptiness of its output decides control flow. -/
structure ParsedReadings where
  readings : List Reading
  liturgicalColor : String
  season : String
deriving DecidableEq, Repr

/-- `NON_CACHED_LIMIT_PER_USER` from `src/app/api/readings/route.ts`. -/
def nonCachedLimitPerUser : Nat := 7

/-- `NON_CACHED_WINDOW_SECONDS` from `src/app/api/readings/route.ts`. -/
def nonCachedWindowSeconds : Nat := 60 * 60 * 24

/-- Server-side state touched by the readings handler: the redis key-value
cache (`readings:<lang>:<date>` → serialized payload), the redis miss
counters, and the in-process `inMemoryMissTracker` map
(window key → (count, resetAt in ms)). -/
structure ServerState where
  kv : List (String × String)
  counters : List (String × Nat)
  mem : List (String × Nat × Nat)
deriving Repr

/-- The per-request environment of `GET`: resolved query parameters, the
client identifier, availability and fault injection for the redis backend
(a faulting operation models a thrown exception reaching the outer catch),
the origin fetch outcome (`none` = network error; otherwise HTTP status and
body), and the current clock. -/
structure RequestEnv where
  lang : Lang
  isoDate : String
  todayIso : String
  clientId : String
  redisAvailable : Bool
  redisGetFails : Bool
  redisIncrFails : Bool
  redisSetFails : Bool
  fetchResult : Option (Nat × String)
  nowMs : Nat

/-- The shared-cache key `readings:<lang>:<isoDate>`. -/
def readingsCacheKey (env : RequestEnv) : String :=
  "readings:" ++ langStr env.lang ++ ":" ++ env.isoDate

/-- The rate-limit window key
`readings:misses:<clientId>:<lang>:<today>` of `trackNonCachedMiss`. -/
def missWindowKey (env : RequestEnv) : String :=
  "readings:misses:" ++ env.clientId ++ ":" ++ langStr env.lang ++ ":" ++ env.todayIso

/-- Response body shapes produced by the readings handler: a cached/fresh
payload, the 429 error object, or the fallback object of the catch block
(whose single reading literal carries an extra `date` field). -/
inductive Body where
  | payload (c : CachedReadings)
  | rateLimited (error : String)
  | fallbackPayload (date citation label content : String) (ty : ReadingType)
      (liturgicalColor season language error : String)
deriving DecidableEq, Repr

/-- An HTTP response of the handler: status, `Cache-Control` and `X-Cache`
headers, and JSON body. -/
structure HttpResponse where
  status : Nat
  cacheControl : String
  xCache : String
  body : Body
deriving DecidableEq, Repr

/-- The `Cache-Control` value of HIT and MISS responses. -/
def stdCacheControl : String := "public, s-maxage=86400, stale-while-revalidate=172800"

/-- The cache-hit response of `GET`. -/
def hitResponse (cached : CachedReadings) : HttpResponse :=
  ⟨200, stdCacheControl, "HIT", Body.payload cached⟩

/-- The fresh-fetch response of `GET`. -/
def missResponse (d : CachedReadings) : HttpResponse :=
  ⟨200, stdCacheControl, "MISS", Body.payload d⟩

/-- The 429 error message of `GET`. -/
def rateLimitMessage : String :=
  "Rate limit reached for uncached readings. Please try a cached day or come back tomorrow."

/-- The rate-limited response of `GET`: HTTP 429, `Cache-Control: no-store`. -/
def rateLimitResponse : HttpResponse :=
  ⟨429, "no-store", "RATE_LIMIT", Body.rateLimited rateLimitMessage⟩

/-- The locale-dependent fallback psalm text of the catch block. -/
def fallbackContent : Lang → String
  | .es => "El Señor es mi pastor; nada me falta. En verdes praderas me hace descansar; junto a aguas tranquilas me conduce; me restaura el alma."
  | .en => "The Lord is my shepherd; there is nothing I shall want. In green pastures he makes me lie down; to still waters he leads me; he restores my soul."

/-- The locale-dependent fallback reading label of the catch block. -/
def fallbackLabel : Lang → String
  | .es => "Salmo Responsorial"
  | .en => "Responsorial Psalm"

/-- The locale-dependent fallback season of the catch block. -/
def fallbackSeason : Lang → String
  | .es => "Tiempo Ordinario"
  | .en => "Ordinary Time"

/-- The catch-block response of `GET`: HTTP 200, short-TTL cache headers,
`X-Cache: ERROR`, a Psalm 23 placeholder reading, green color, Ordinary
Time season and an `error` text field. -/
def fallbackResponse (env : RequestEnv) : HttpResponse :=
  ⟨200, "public, s-maxage=300", "ERROR",
    Body.fallbackPayload env.isoDate "Salmo 23:1-6" (fallbackLabel env.lang)
      (fallbackContent env.lang) ReadingType.psalm "green" (fallbackSeason env.lang)
      (langStr env.lang) "Failed to fetch readings"⟩

/-- `trackNonCachedMiss` from `src/app/api/readings/route.ts`: with redis,
an atomic increment of the window key (the expiry on first increment is not
modelled, counters being scoped to one calendar day by their key); without
redis, the in-process map with its manually tracked reset time. -/
def trackNonCachedMiss (env : RequestEnv) (st : ServerState) : Nat × ServerState :=
  if env.redisAvailable then
    let c := (alistLookup st.counters (missWindowKey env)).getD 0 + 1
    (c, { st with counters := (missWindowKey env, c) :: st.counters })
  else
    match alistLookup st.mem (missWindowKey env) with
    | some entry =>
      if entry.2 ≤ env.nowMs then
        (1, { st with mem := (missWindowKey env, 1, env.nowMs + nonCachedWindowSeconds * 1000) :: st.mem })
      else
        (entry.1 + 1, { st with mem := (missWindowKey env, entry.1 + 1, entry.2) :: st.mem })
    | none =>
      (1, { st with mem := (missWindowKey env, 1, env.nowMs + nonCachedWindowSeconds * 1000) :: st.mem })

/-- The miss count that `trackNonCachedMiss` records for this request. -/
def missCountAfter (env : RequestEnv) (st : ServerState) : Nat :=
  (trackNonCachedMiss env st).1

/-- The payload assembled on a successful miss
(`dataToCache` in `GET`). -/
def dataToCache (env : RequestEnv) (parsed : ParsedReadings) : CachedReadings :=
  { readings := parsed.readings, liturgicalColor := parsed.liturgicalColor,
    season := parsed.season, cachedAt := env.nowMs, language := langStr env.lang }

/-- Steps 2b-3 of `GET` after the rate-limit check passed: fetch from the
origin (a thrown network error and a non-2xx status both route to the catch
block), parse, treat zero readings as failure, store the compressed payload
when redis is available (a throwing `setEx` routes to the catch block
without a write), and respond.  The third component records whether an
origin fetch was performed. -/
def fetchAndStore (parseFn : String → Lang → ParsedReadings) (c : PayloadCodec)
    (env : RequestEnv) (st : ServerState) : HttpResponse × ServerState × Bool :=
  match env.fetchResult with
  | none => (fallbackResponse env, st, true)
  | some res =>
    if ¬ (200 ≤ res.1 ∧ res.1 < 300) then (fallbackResponse env, st, true)
    else
      let parsed := parseFn res.2 env.lang
      if parsed.readings.length = 0 then (fallbackResponse env, st, true)
      else
        let d := dataToCache env parsed
        if env.redisAvailable then
          if env.redisSetFails then (fallbackResponse env, st, true)
          else (missResponse d,
                { st with kv := (readingsCacheKey env, compressPayload c d) :: st.kv }, true)
        else (missResponse d, st, true)

/-- The miss path of `GET` from the rate-limit check onwards, after the
miss has been recorded as `tr`. -/
def missFlow (parseFn : String → Lang → ParsedReadings) (c : PayloadCodec)
    (env : RequestEnv) (tr : Nat × ServerState) : HttpResponse × ServerState × Bool :=
  if tr.1 > nonCachedLimitPerUser then (rateLimitResponse, tr.2, false)
  else fetchAndStore parseFn c env tr.2

/-- The `GET` handler of `src/app/api/readings/route.ts` as a total state
transformer.  Every throwing branch (redis operation failure, decompression
failure, network error, non-2xx origin status, empty parse) routes to the
catch block, i.e. to `fallbackResponse`; the handler therefore always
terminates with a response.  Returns the response, the updated server
state, and whether an origin fetch was performed. -/
def readingsGET (parseFn : String → Lang → ParsedReadings) (c : PayloadCodec)
    (env : RequestEnv) (st : ServerState) : HttpResponse × ServerState × Bool :=
  if env.redisAvailable then
    if env.redisGetFails then (fallbackResponse env, st, false)
    else
      match alistLookup st.kv (readingsCacheKey env) with
      | some cachedStr =>
        match decompressPayload c cachedStr with
        | some cached => (hitResponse cached, st, false)
        | none => (fallbackResponse env, st, false)
      | none =>
        if env.redisIncrFails then (fallbackResponse env, st, false)
        else missFlow parseFn c env (trackNonCachedMiss env st)
  else missFlow parseFn c env (trackNonCachedMiss env st)

/-- The request reaches the point where `trackNonCachedMiss` records a miss:
with redis available this needs a non-throwing `get` that found nothing and
a non-throwing `incr`; without redis it always does. -/
def MissRecorded (env : RequestEnv) (st : ServerState) : Prop :=
  env.redisAvailable = true →
    env.redisGetFails = false ∧ alistLookup st.kv (readingsCacheKey env) = none ∧
      env.redisIncrFails = false

/-- Generic fallthrough label of `normalizeLabel` for an empty trimmed label. -/
def genericLabel : Lang → String
  | .en => "Reading"
  | .es => "Lectura"

section Lemmas

/-- Decompressing a compressed payload recovers it, given the codec
contracts at that payload. -/
theorem decompress_compress (c : PayloadCodec) (p : CachedReadings)
    (hjson : c.parse (c.stringify p) = some p)
    (hplain : c.gunzip (c.b64decode (c.stringify p)) = none)
    (hgz : ∀ b, c.gzip (c.stringify p) = some b →
      c.gunzip (c.b64decode (c.b64encode b)) = some (c.stringify p)) :
    decompressPayload c (compressPayload c p) = some p := by
  unfold compressPayload decompressPayload
  cases h : c.gzip (c.stringify p) with
  | some b =>
    rw [hgz b h]
    simp [hjson]
  | none =>
    rw [hplain]
    simp [hjson]

/-- Decompressing a legacy plain-JSON entry recovers it via the fallback. -/
theorem decompress_plain (c : PayloadCodec) (p : CachedReadings)
    (hjson : c.parse (c.stringify p) = some p)
    (hplain : c.gunzip (c.b64decode (c.stringify p)) = none) :
    decompressPayload c (c.stringify p) = some p := by
  unfold decompressPayload
  rw [hplain]
  simp [hjson]

end Lemmas

/-- C4: For every cached-readings payload p, decompressPayload
(compressPayload p) equals p (structural round-trip through gzip+base64 and
JSON), and a payload stored uncompressed as plain JSON (legacy format) is
also recovered by decompressPayload via the raw-deserialize fallback.  The
zlib/JSON/base64 library primitives enter as a codec satisfying its
contracts at p. -/
theorem compress_decompress_roundtrip (c : PayloadCodec) (p : CachedReadings)
    (hjson : c.parse (c.stringify p) = some p)
    (hplain : c.gunzip (c.b64decode (c.stringify p)) = none)
    (hgz : ∀ b, c.gzip (c.stringify p) = some b →
      c.gunzip (c.b64decode (c.b64encode b)) = some (c.stringify p)) :
    decompressPayload c (compressPayload c p) = some p ∧
      decompressPayload c (c.stringify p) = some p :=
  ⟨decompress_compress c p hjson hplain hgz, decompress_plain c p hjson hplain⟩

/-- A concrete payload used to instantiate the codec theorems. -/
def rtPayload : CachedReadings :=
  { readings := [⟨"Ps 23", "Responsorial Psalm", "The Lord is my shepherd", .psalm⟩],
    liturgicalColor := "green", season := "Ordinary Time", cachedAt := 0, language := "en" }

/-- A concrete codec satisfying the library contracts at `rtPayload`. -/
def rtCodec : PayloadCodec :=
  { stringify := fun _ => "J"
    parse := fun s => if s = "J" then some rtPayload else none
    gzip := fun _ => some [31]
    gunzip := fun l => if l = [31] then some "J" else none
    b64encode := fun l => if l = [31] then "G" else "X"
    b64decode := fun s => if s = "G" then [31] else [] }

/-- Witness for C4 at `rtCodec` and `rtPayload`. -/
theorem compress_decompress_roundtrip_witness :
    decompressPayload rtCodec (compressPayload rtCodec rtPayload) = some rtPayload ∧
      decompressPayload rtCodec (rtCodec.stringify rtPayload) = some rtPayload :=
  compress_decompress_roundtrip rtCodec rtPayload (by decide) (by decide)
    (by
      intro b hb
      have hb2 : some [31] = some b := hb
      have h3 : ([31] : List Nat) = b := Option.some.inj hb2
      subst h3
      decide)

/-- C6 counterexample: the raw label Zebra matches no keyword rule of the
English ruleset, and `normalizeLabel` keeps it verbatim instead of mapping
it to the canonical first-reading label (the canonical label the code uses
is First Reading); only the type defaults to `first`. -/
theorem normalizeLabel_unmatched_counterexample :
    normalizeLabel "Zebra" Lang.en = "Zebra" ∧
      normalizeLabel "Zebra" Lang.en ≠ "First Reading" ∧
      mapLabelToType "Zebra" Lang.en = ReadingType.first := by
  decide

/-- C6 (amended): a raw label matching none of the language-specific keyword
rules keeps its trimmed text as label (or the generic label when empty) and
is assigned reading type `first`. -/
theorem normalizeLabel_unmatched (label : String) (lang : Lang)
    (h : ∀ kw ∈ normalizeKeywords lang, jsIncludes (jsToLower label) kw = false) :
    normalizeLabel label lang =
        (if jsTrim label ≠ "" then jsTrim label else genericLabel lang) ∧
      mapLabelToType label lang = ReadingType.first := by
  cases lang with
  | en =>
    have h1 := h "psalm" (by simp [normalizeKeywords])
    have h2 := h "gospel" (by simp [normalizeKeywords])
    have h3 := h "alleluia" (by simp [normalizeKeywords])
    have h4 := h "second" (by simp [normalizeKeywords])
    have h5 := h "reading 2" (by simp [normalizeKeywords])
    have h6 := h "reading 1" (by simp [normalizeKeywords])
    simp [normalizeLabel, mapLabelToType, genericLabel, h1, h2, h3, h4, h5, h6]
  | es =>
    have h1 := h "salmo" (by simp [normalizeKeywords])
    have h2 := h "aleluya" (by simp [normalizeKeywords])
    have h3 := h "aclamacion" (by simp [normalizeKeywords])
    have h4 := h "aclamación" (by simp [normalizeKeywords])
    have h5 := h "evangelio" (by simp [normalizeKeywords])
    have h6 := h "segunda" (by simp [normalizeKeywords])
    have h7 := h "lectura 2" (by simp [normalizeKeywords])
    have h8 := h "primera" (by simp [normalizeKeywords])
    have h9 := h "lectura 1" (by simp [normalizeKeywords])
    simp [normalizeLabel, mapLabelToType, genericLabel, h1, h2, h3, h4, h5, h6, h7, h8, h9]

/-- Witness for the amended C6 at the unmatched label Zebra. -/
theorem normalizeLabel_unmatched_witness :
    normalizeLabel "Zebra" Lang.en =
        (if jsTrim "Zebra" ≠ "" then jsTrim "Zebra" else genericLabel Lang.en) ∧
      mapLabelToType "Zebra" Lang.en = ReadingType.first :=
  normalizeLabel_unmatched "Zebra" Lang.en (by decide)

/-- C7: the classifier returns one of exactly five colors with precedence
white > red > violet > rose > green: a violet (Advent/Lent) marker with no
white or red marker yields violet, a red (Pentecost tier) marker with no
white marker yields red, and no marker of any tier yields green. -/
theorem determineLiturgicalColor_precedence (title : String) (lang : Lang) :
    (determineLiturgicalColor title lang = "white" ∨
      determineLiturgicalColor title lang = "red" ∨
      determineLiturgicalColor title lang = "violet" ∨
      determineLiturgicalColor title lang = "rose" ∨
      determineLiturgicalColor title lang = "green") ∧
    (hasAnyKeyword (jsToLower title) (violetKeywords lang) = true →
      hasAnyKeyword (jsToLower title) (whiteKeywords lang) = false →
      hasAnyKeyword (jsToLower title) (redKeywords lang) = false →
      determineLiturgicalColor title lang = "violet") ∧
    (hasAnyKeyword (jsToLower title) (redKeywords lang) = true →
      hasAnyKeyword (jsToLower title) (whiteKeywords lang) = false →
      determineLiturgicalColor title lang = "red") ∧
    (hasAnyKeyword (jsToLower title) (whiteKeywords lang) = false →
      hasAnyKeyword (jsToLower title) (redKeywords lang) = false →
      hasAnyKeyword (jsToLower title) (violetKeywords lang) = false →
      jsIncludes (jsToLower title) "gaudete" = false →
      jsIncludes (jsToLower title) "laetare" = false →
      determineLiturgicalColor title lang = "green") := by
  refine ⟨?_, ?_, ?_, ?_⟩
  · unfold determineLiturgicalColor
    dsimp only
    split
    · simp
    · split
      · simp
      · split
        · simp
        · split <;> simp
  · intro hv hw hr
    simp [determineLiturgicalColor, hv, hw, hr]
  · intro hr hw
    simp [determineLiturgicalColor, hr, hw]
  · intro hw hr hv hg hl
    simp [determineLiturgicalColor, hw, hr, hv, hg, hl]

/-- Witness for C7: an Advent title classifies violet, a Pentecost title
red, an unmarked ferial title green. -/
theorem determineLiturgicalColor_precedence_witness :
    determineLiturgicalColor "First Sunday of Advent" Lang.en = "violet" ∧
      determineLiturgicalColor "Pentecost Sunday" Lang.en = "red" ∧
      determineLiturgicalColor "Tuesday of the Fourth Week in Ordinary Time" Lang.en = "green" :=
  ⟨(determineLiturgicalColor_precedence "First Sunday of Advent" Lang.en).2.1
      (by decide) (by decide) (by decide),
    (determineLiturgicalColor_precedence "Pentecost Sunday" Lang.en).2.2.1
      (by decide) (by decide),
    (determineLiturgicalColor_precedence "Tuesday of the Fourth Week in Ordinary Time" Lang.en).2.2.2
      (by decide) (by decide) (by decide) (by decide) (by decide)⟩

/-- The retention cutoff of the concrete scenario: with the clock at
45 days (in ms), thirty days before now. -/
def demoCutoff : Nat := 45 * 86400000 - 30 * 86400000

/-- A record dated (and fetched) 45 days in the past, at clock 45 days. -/
def demoOldRec : DailyReadingsRec :=
  ⟨"2026-08-27", [], "green", "Ordinary Time", none, 0, none⟩

/-- A record dated (and fetched) today, at clock 45 days. -/
def demoTodayRec : DailyReadingsRec :=
  ⟨"2026-10-11", [], "green", "Ordinary Time", none, 45 * 86400000, none⟩

/-- C2: every write through `cacheReadings` purges, in the same operation,
all records whose fetch timestamp falls outside the retention window; in
particular writing a record dated 45 days in the past alongside one dated
today leaves only today's record. -/
theorem cacheReadings_retention :
    (∀ (store : ReadingsStore) (entry : DailyReadingsRec) (cutoff : Nat),
      ∀ r ∈ cacheReadings store entry cutoff, cutoff ≤ r.fetchedAt) ∧
    cacheReadings (cacheReadings [] demoOldRec demoCutoff) demoTodayRec demoCutoff
      = [demoTodayRec] := by
  constructor
  · intro store entry cutoff r hr
    unfold cacheReadings at hr
    have h2 := (List.mem_filter.mp hr).2
    simp only [decide_eq_true_eq, Nat.not_lt] at h2
    exact h2
  · decide

/-- Witness for C2's purge invariant at a concrete store and cutoff. -/
theorem cacheReadings_retention_witness :
    (0 : Nat) ≤ demoTodayRec.fetchedAt :=
  cacheReadings_retention.1 [] demoTodayRec 0 demoTodayRec (by decide)

/-- C8: the service-worker readings branch serves a cached entry younger
than 24 hours without a network call; with the entry absent or stale it
attempts the network and stores-and-serves an `ok` response; and when the
network fetch throws while a (stale) cached entry exists, that entry is
served instead of an error. -/
theorem swHandleReadings_policy (bucket : Option SWCachedResp) (nowMs : Nat)
    (net : Option SWNetResp) :
    (∀ cached, bucket = some cached → nowMs - cached.dateMs < swFreshWindowMs →
      swHandleReadings bucket nowMs net = (SWOutcome.served cached.body, bucket, false)) ∧
    ((bucket = none ∨
        ∃ cached, bucket = some cached ∧ ¬ nowMs - cached.dateMs < swFreshWindowMs) →
      (swHandleReadings bucket nowMs net).2.2 = true ∧
      ∀ resp, net = some resp → resp.ok = true →
        swHandleReadings bucket nowMs net =
          (SWOutcome.served resp.body, some ⟨resp.dateMs, resp.body⟩, true)) ∧
    (∀ cached, bucket = some cached → ¬ nowMs - cached.dateMs < swFreshWindowMs →
      net = none →
      swHandleReadings bucket nowMs net = (SWOutcome.served cached.body, some cached, true)) := by
  refine ⟨?_, ?_, ?_⟩
  · intro cached hb hf
    subst hb
    simp [swHandleReadings, hf]
  · intro h
    rcases h with hb | ⟨cached, hb, hst⟩
    · subst hb
      constructor
      · cases net with
        | none => simp [swHandleReadings]
        | some resp => by_cases hok : resp.ok = true <;> simp [swHandleReadings, hok]
      · intro resp hn hok
        subst hn
        simp [swHandleReadings, hok]
    · subst hb
      constructor
      · cases net with
        | none => simp [swHandleReadings, hst]
        | some resp => by_cases hok : resp.ok = true <;> simp [swHandleReadings, hst, hok]
      · intro resp hn hok
        subst hn
        simp [swHandleReadings, hst, hok]
  · intro cached hb hst hn
    subst hb
    subst hn
    simp [swHandleReadings, hst]

/-- Witness for C8: the three policy branches at concrete inputs. -/
theorem swHandleReadings_policy_witness :
    swHandleReadings (some ⟨0, "young"⟩) 1000 none
        = (SWOutcome.served "young", some ⟨0, "young"⟩, false) ∧
      swHandleReadings none 0 (some ⟨true, 5, "fresh"⟩)
        = (SWOutcome.served "fresh", some ⟨5, "fresh"⟩, true) ∧
      swHandleReadings (some ⟨0, "stale"⟩) (swFreshWindowMs + 7) none
        = (SWOutcome.served "stale", some ⟨0, "stale"⟩, true) :=
  ⟨(swHandleReadings_policy (some ⟨0, "young"⟩) 1000 none).1 ⟨0, "young"⟩ rfl (by decide),
    ((swHandleReadings_policy none 0 (some ⟨true, 5, "fresh"⟩)).2.1 (Or.inl rfl)).2
      ⟨true, 5, "fresh"⟩ rfl rfl,
    (swHandleReadings_policy (some ⟨0, "stale"⟩) (swFreshWindowMs + 7) none).2.2
      ⟨0, "stale"⟩ rfl (by decide) rfl⟩

/-- One `mergeStep` preserves the no-adjacent-verses invariant. -/
theorem mergeStep_chain' (s : PrayerSection) :
    ∀ merged, List.Chain' NotBothVerses merged →
      List.Chain' NotBothVerses (mergeStep merged s) := by
  intro merged
  induction merged using List.reverseRecOn with
  | nil =>
    intro hacc
    simp [mergeStep]
  | append_singleton ys y _ =>
    intro h
    by_cases hc : s.type = SectionType.verses ∧ y.type = SectionType.verses
    · simp only [mergeStep, List.getLast?_concat, List.dropLast_concat, if_pos hc]
      rw [List.chain'_append] at h ⊢
      refine ⟨h.1, List.chain'_singleton _, ?_⟩
      intro x hx z hz
      simp only [List.head?_cons, Option.mem_def, Option.some.injEq] at hz
      have hy := h.2.2 x hx y (by simp)
      subst hz
      intro hcon
      exact hy ⟨hcon.1, hc.2⟩
    · simp only [mergeStep, List.getLast?_concat, if_neg hc]
      rw [List.chain'_append]
      refine ⟨h, List.chain'_singleton _, ?_⟩
      intro x hx z hz
      simp only [List.getLast?_concat, Option.mem_def, Option.some.injEq] at hx
      simp only [List.head?_cons, Option.mem_def, Option.some.injEq] at hz
      subst hx
      subst hz
      intro hcon
      exact hc ⟨hcon.2, hcon.1⟩

/-- C9: the section list produced by the merge post-process of
`parseHTMLToSections` never contains two adjacent verse sections; since the
parser returns `mergeConsecutiveVerses` of its accumulated sections, this
holds for the parse of every input HTML string. -/
theorem mergeConsecutiveVerses_no_adjacent_verses (sections : List PrayerSection) :
    List.Chain' NotBothVerses (mergeConsecutiveVerses sections) := by
  suffices h : ∀ acc, List.Chain' NotBothVerses acc →
      List.Chain' NotBothVerses (List.foldl mergeStep acc sections) by
    exact h [] (by simp)
  induction sections with
  | nil =>
    intro acc hacc
    simpa using hacc
  | cons s rest ih =>
    intro acc hacc
    simpa using ih (mergeStep acc s) (mergeStep_chain' s acc hacc)

/-- Recording a miss never touches the shared readings cache. -/
theorem trackNonCachedMiss_kv (env : RequestEnv) (st : ServerState) :
    ((trackNonCachedMiss env st).2).kv = st.kv := by
  unfold trackNonCachedMiss
  split
  · rfl
  · split
    · split <;> rfl
    · rfl

/-- A cache hit returns the decompressed payload and leaves state alone. -/
theorem readingsGET_hit (parseFn : String → Lang → ParsedReadings) (c : PayloadCodec)
    (env : RequestEnv) (st : ServerState) (cached : CachedReadings) (cachedStr : String)
    (ha : env.redisAvailable = true) (hg : env.redisGetFails = false)
    (hl : alistLookup st.kv (readingsCacheKey env) = some cachedStr)
    (hdec : decompressPayload c cachedStr = some cached) :
    readingsGET parseFn c env st = (hitResponse cached, st, false) := by
  simp [readingsGET, ha, hg, hl, hdec]

/-- C1: once the recorded per-client per-language daily miss count exceeds
the threshold of 7, the handler answers HTTP 429 with the JSON error
message, performs no origin fetch, writes nothing to the shared readings
cache, and marks the response `Cache-Control: no-store`. -/
theorem rateLimited_rejected (parseFn : String → Lang → ParsedReadings)
    (c : PayloadCodec) (env : RequestEnv) (st : ServerState)
    (hmiss : MissRecorded env st)
    (hcount : nonCachedLimitPerUser < missCountAfter env st) :
    readingsGET parseFn c env st = (rateLimitResponse, (trackNonCachedMiss env st).2, false) ∧
      ((trackNonCachedMiss env st).2).kv = st.kv ∧
      rateLimitResponse.status = 429 ∧
      rateLimitResponse.cacheControl = "no-store" ∧
      rateLimitResponse.body = Body.rateLimited rateLimitMessage := by
  have hc : nonCachedLimitPerUser < (trackNonCachedMiss env st).1 := hcount
  refine ⟨?_, trackNonCachedMiss_kv env st, rfl, rfl, rfl⟩
  cases hra : env.redisAvailable with
  | false => simp [readingsGET, hra, missFlow, hc]
  | true =>
    obtain ⟨hg, hl, hi⟩ := hmiss hra
    simp [readingsGET, hra, hg, hl, hi, missFlow, hc]

/-- C3: when the request is not rate limited and the origin fetch fails
(network error or non-2xx) or the parse yields zero readings, the handler
answers HTTP 200 with the locale-appropriate Psalm 23 placeholder (green,
Ordinary Time) carrying an error text, and writes nothing to the shared
cache. -/
theorem origin_failure_fallback (parseFn : String → Lang → ParsedReadings)
    (c : PayloadCodec) (env : RequestEnv) (st : ServerState)
    (hmiss : MissRecorded env st)
    (hcount : missCountAfter env st ≤ nonCachedLimitPerUser)
    (hfail : env.fetchResult = none ∨
      (∃ res, env.fetchResult = some res ∧ ¬ (200 ≤ res.1 ∧ res.1 < 300)) ∨
      (∃ res, env.fetchResult = some res ∧ (200 ≤ res.1 ∧ res.1 < 300) ∧
        (parseFn res.2 env.lang).readings.length = 0)) :
    readingsGET parseFn c env st = (fallbackResponse env, (trackNonCachedMiss env st).2, true) ∧
      ((trackNonCachedMiss env st).2).kv = st.kv ∧
      (fallbackResponse env).status = 200 ∧
      (fallbackResponse env).body = Body.fallbackPayload env.isoDate "Salmo 23:1-6"
        (fallbackLabel env.lang) (fallbackContent env.lang) ReadingType.psalm "green"
        (fallbackSeason env.lang) (langStr env.lang) "Failed to fetch readings" := by
  have hnot : ¬ nonCachedLimitPerUser < (trackNonCachedMiss env st).1 := not_lt.mpr hcount
  have hred : readingsGET parseFn c env st
      = fetchAndStore parseFn c env (trackNonCachedMiss env st).2 := by
    cases hra : env.redisAvailable with
    | false => simp [readingsGET, hra, missFlow, hnot]
    | true =>
      obtain ⟨hg, hl, hi⟩ := hmiss hra
      simp [readingsGET, hra, hg, hl, hi, missFlow, hnot]
  refine ⟨?_, trackNonCachedMiss_kv env st, rfl, rfl⟩
  rw [hred]
  rcases hfail with hn | ⟨res, hres, hnok⟩ | ⟨res, hres, hok, hempty⟩
  · simp [fetchAndStore, hn]
  · simp [fetchAndStore, hres, hnok]
  · simp [fetchAndStore, hres, hok, hempty]

/-- C10: the handler is total and only ever answers 200 or 429, and every
outcome is one of the four response shapes — in particular every throwing
branch inside it resolves to the 200 fallback response. -/
theorem readingsGET_status_total (parseFn : String → Lang → ParsedReadings)
    (c : PayloadCodec) (env : RequestEnv) (st : ServerState) :
    ((readingsGET parseFn c env st).1.status = 200 ∨
      (readingsGET parseFn c env st).1.status = 429) ∧
    ((∃ cached, (readingsGET parseFn c env st).1 = hitResponse cached) ∨
      (∃ d, (readingsGET parseFn c env st).1 = missResponse d) ∨
      (readingsGET parseFn c env st).1 = rateLimitResponse ∨
      (readingsGET parseFn c env st).1 = fallbackResponse env) := by
  constructor
  · unfold readingsGET missFlow fetchAndStore
    repeat' split
    all_goals first
      | exact Or.inl rfl
      | exact Or.inr rfl
      | (dsimp only
         repeat' split
         all_goals exact Or.inl rfl)
  · unfold readingsGET missFlow fetchAndStore
    repeat' split
    all_goals first
      | exact Or.inl ⟨_, rfl⟩
      | exact Or.inr (Or.inl ⟨_, rfl⟩)
      | exact Or.inr (Or.inr (Or.inl rfl))
      | exact Or.inr (Or.inr (Or.inr rfl))
      | (dsimp only
         repeat' split
         all_goals first
           | exact Or.inr (Or.inl ⟨_, rfl⟩)
           | exact Or.inr (Or.inr (Or.inr rfl)))

/-- C5: after a completed miss stored its payload, a second request for the
same (date, language) pair answers HIT with identical readings content,
performs no origin fetch, and leaves the rate-limit counters and the
in-memory tracker untouched (its state is unchanged entirely). -/
theorem cached_after_miss_hits (parseFn : String → Lang → ParsedReadings)
    (c : PayloadCodec) (env env2 : RequestEnv) (st : ServerState)
    (h1 : env.redisAvailable = true) (h2 : env.redisGetFails = false)
    (h3 : alistLookup st.kv (readingsCacheKey env) = none)
    (h4 : env.redisIncrFails = false)
    (h5 : missCountAfter env st ≤ nonCachedLimitPerUser)
    (res : Nat × String)
    (h6 : env.fetchResult = some res)
    (h7 : 200 ≤ res.1 ∧ res.1 < 300)
    (h8 : (parseFn res.2 env.lang).readings.length ≠ 0)
    (h9 : env.redisSetFails = false)
    (e1 : env2.lang = env.lang) (e2 : env2.isoDate = env.isoDate)
    (e3 : env2.redisAvailable = true) (e4 : env2.redisGetFails = false)
    (d : CachedReadings) (hd : d = dataToCache env (parseFn res.2 env.lang))
    (hjson : c.parse (c.stringify d) = some d)
    (hplain : c.gunzip (c.b64decode (c.stringify d)) = none)
    (hgz : ∀ b, c.gzip (c.stringify d) = some b →
      c.gunzip (c.b64decode (c.b64encode b)) = some (c.stringify d)) :
    (readingsGET parseFn c env st).1 = missResponse d ∧
      (readingsGET parseFn c env2 (readingsGET parseFn c env st).2.1).1 = hitResponse d ∧
      (readingsGET parseFn c env2 (readingsGET parseFn c env st).2.1).2.2 = false ∧
      (readingsGET parseFn c env2 (readingsGET parseFn c env st).2.1).2.1
        = (readingsGET parseFn c env st).2.1 := by
  have hnot : ¬ nonCachedLimitPerUser < (trackNonCachedMiss env st).1 := not_lt.mpr h5
  have hb1 : (readingsGET parseFn c env st).1 = missResponse d := by
    subst hd
    simp [readingsGET, h1, h2, h3, h4, missFlow, hnot, fetchAndStore, h6, h7, h8, h9]
  have hkv : (readingsGET parseFn c env st).2.1.kv
      = (readingsCacheKey env, compressPayload c d) :: (trackNonCachedMiss env st).2.kv := by
    subst hd
    simp [readingsGET, h1, h2, h3, h4, missFlow, hnot, fetchAndStore, h6, h7, h8, h9]
  have hkey : readingsCacheKey env2 = readingsCacheKey env := by
    simp [readingsCacheKey, e1, e2]
  have hlook : alistLookup (readingsGET parseFn c env st).2.1.kv (readingsCacheKey env2)
      = some (compressPayload c d) := by
    rw [hkv, hkey]
    simp [alistLookup]
  have h2nd := readingsGET_hit parseFn c env2 (readingsGET parseFn c env st).2.1 d
    (compressPayload c d) e3 e4 hlook (decompress_compress c d hjson hplain hgz)
  exact ⟨hb1, by rw [h2nd], by rw [h2nd], by rw [h2nd]⟩

/-- A concrete parse function: every fetch yields the `rtPayload` readings. -/
def demoParse : String → Lang → ParsedReadings :=
  fun _ _ => ⟨rtPayload.readings, "green", "Ordinary Time"⟩

/-- A concrete request environment with redis healthy and a 200 origin. -/
def missEnv : RequestEnv :=
  { lang := .en, isoDate := "2026-10-11", todayIso := "2026-10-11",
    clientId := "1.2.3.4", redisAvailable := true, redisGetFails := false,
    redisIncrFails := false, redisSetFails := false,
    fetchResult := some (200, "html"), nowMs := 0 }

/-- The same request issued by a different client. -/
def hitEnv : RequestEnv := { missEnv with clientId := "5.6.7.8" }

/-- The same request with the origin unreachable. -/
def failEnv : RequestEnv := { missEnv with fetchResult := none }

/-- Empty server state. -/
def emptyState : ServerState := ⟨[], [], []⟩

/-- Server state in which this client already spent its 7 misses today. -/
def limitState : ServerState :=
  ⟨[], [("readings:misses:1.2.3.4:en:2026-10-11", 7)], []⟩

/-- Witness for C1: the eighth miss of the day is rejected with 429. -/
theorem rateLimited_rejected_witness :
    readingsGET demoParse rtCodec missEnv limitState
        = (rateLimitResponse, (trackNonCachedMiss missEnv limitState).2, false) ∧
      ((trackNonCachedMiss missEnv limitState).2).kv = limitState.kv ∧
      rateLimitResponse.status = 429 ∧
      rateLimitResponse.cacheControl = "no-store" ∧
      rateLimitResponse.body = Body.rateLimited rateLimitMessage :=
  rateLimited_rejected demoParse rtCodec missEnv limitState
    (fun _ => ⟨rfl, rfl, rfl⟩) (by decide)

/-- Witness for C3: a network error resolves to the 200 fallback. -/
theorem origin_failure_fallback_witness :
    readingsGET demoParse rtCodec failEnv emptyState
        = (fallbackResponse failEnv, (trackNonCachedMiss failEnv emptyState).2, true) ∧
      ((trackNonCachedMiss failEnv emptyState).2).kv = emptyState.kv ∧
      (fallbackResponse failEnv).status = 200 ∧
      (fallbackResponse failEnv).body = Body.fallbackPayload failEnv.isoDate "Salmo 23:1-6"
        (fallbackLabel failEnv.lang) (fallbackContent failEnv.lang) ReadingType.psalm "green"
        (fallbackSeason failEnv.lang) (langStr failEnv.lang) "Failed to fetch readings" :=
  origin_failure_fallback demoParse rtCodec failEnv emptyState
    (fun _ => ⟨rfl, rfl, rfl⟩) (by decide) (Or.inl rfl)

/-- Witness for C5: a stored miss is followed by an identical HIT. -/
theorem cached_after_miss_hits_witness :
    (readingsGET demoParse rtCodec missEnv emptyState).1 = missResponse rtPayload ∧
      (readingsGET demoParse rtCodec hitEnv
        (readingsGET demoParse rtCodec missEnv emptyState).2.1).1 = hitResponse rtPayload ∧
      (readingsGET demoParse rtCodec hitEnv
        (readingsGET demoParse rtCodec missEnv emptyState).2.1).2.2 = false ∧
      (readingsGET demoParse rtCodec hitEnv
        (readingsGET demoParse rtCodec missEnv emptyState).2.1).2.1
        = (readingsGET demoParse rtCodec missEnv emptyState).2.1 :=
  cached_after_miss_hits demoParse rtCodec missEnv hitEnv emptyState
    rfl rfl rfl rfl (by decide) (200, "html") rfl (by decide) (by decide) rfl
    rfl rfl rfl rfl rtPayload rfl (by decide) (by decide)
    (by
      intro b hb
      have hb2 : some [31] = some b := hb
      have h3 : ([31] : List Nat) = b := Option.some.inj hb2
      subst h3
      decide)

end Sanctu
